import Mathlib

/-!
Verification development for the Modulate-Server gateway
(`src/auth.ts`, `src/routes/reports.ts`, `src/index.ts`, `src/types.ts`).

The TypeScript source is shallowly embedded: each handler becomes a pure
Lean function; external collaborators (the jose JWT library, the Supabase
storage and database clients, `crypto.randomUUID`, `Date.now`) are passed
in as explicit oracles/parameters; the module-level JWKS cache is threaded
as explicit state.  JavaScript truthiness on optional strings is modelled
explicitly (`none` and `some ""` are both falsy).
-/

/-! ## Environment bindings (`src/types.ts`, interface `Env`) -/

/-- Environment bindings of the worker.  A binding may be absent or empty,
which the handlers treat as missing configuration. -/
structure Env where
  SUPABASE_URL : Option String
  SUPABASE_SERVICE_ROLE_KEY : Option String
deriving DecidableEq, Repr

/-- JavaScript falsiness of an optional string: `undefined` or `""`. -/
def falsyS : Option String → Bool
  | none => true
  | some s => s = ""

/-! ## JWKS cache (`src/auth.ts`, lines 5-31) -/

/-- The module-level cache `jwksCache : { jwks, timestamp }`.  The cached
remote JWK set object is identified by the URL it was created from. -/
structure JWKSCache where
  jwks : Option String
  timestamp : Nat
deriving DecidableEq, Repr

/-- `JWKS_CACHE_TTL = 3600000` (one hour in milliseconds). -/
def JWKS_CACHE_TTL : Nat := 3600000

/-- The well-known key-set endpoint URL built in `getJWKS`. -/
def jwksUrlOf (supabaseUrl : String) : String :=
  supabaseUrl ++ "/auth/v1/.well-known/jwks.json"

/-- `getJWKS(supabaseUrl)`: returns the key set to use, the new cache
state, and whether a fresh remote key set was created (a network fetch).
Mirrors `if (!jwksCache.jwks || (now - jwksCache.timestamp) > JWKS_CACHE_TTL)`;
`Nat` truncated subtraction agrees with the JS number subtraction here
because a negative JS difference is also not `> TTL`. -/
def getJWKS (supabaseUrl : String) (now : Nat) (cache : JWKSCache) :
    String × JWKSCache × Bool :=
  match cache.jwks with
  | none =>
      (jwksUrlOf supabaseUrl, ⟨some (jwksUrlOf supabaseUrl), now⟩, true)
  | some j =>
      if now - cache.timestamp > JWKS_CACHE_TTL then
        (jwksUrlOf supabaseUrl, ⟨some (jwksUrlOf supabaseUrl), now⟩, true)
      else
        (j, cache, false)

/-! ## Token verification (`src/auth.ts`, lines 37-74) -/

/-- Decoded JWT claims (`SupabaseJWTPayload`): issuer, audience, expiry
(milliseconds-agnostic instant), and optional subject. -/
structure Token where
  iss : String
  aud : String
  exp : Nat
  sub : Option String
deriving DecidableEq, Repr

/-- Error taxonomy of `verifyToken`: a malformed `Authorization` header
versus a rejected credential (both surfaced as 401 by `authMiddleware`). -/
inductive AuthError where
  | MalformedCredential (msg : String)
  | CredentialRejected (msg : String)
deriving DecidableEq, Repr

/-- Modelled from the spec: the external jose `jwtVerify(token, jwks,
{issuer, audience})` call (the jose library is not part of this
repository).  Per the spec it cryptographically verifies the signature
against the resolved key set and checks the issuer claim, the audience
claim, and that the expiry claim is in the future; any failure throws.
`tokenOf` decodes a token string (`none` = structurally malformed);
`sigValid tok jwks` says the token string's signature verifies against
the key set fetched from `jwks`. -/
def jwtVerify (tokenOf : String → Option Token) (sigValid : String → String → Bool)
    (token jwks issuer audience : String) (now : Nat) : Except String Token :=
  match tokenOf token with
  | none => .error "invalid token structure"
  | some tok =>
      if !sigValid token jwks then .error "signature verification failed"
      else if tok.iss ≠ issuer then .error "unexpected iss claim value"
      else if tok.aud ≠ audience then .error "unexpected aud claim value"
      else if tok.exp ≤ now then .error "token is expired"
      else .ok tok

/-- Split a character list at every delimiter position, keeping empty
pieces, like JS `String.prototype.split` with a single-character
separator. -/
def splitByAux (p : Char → Bool) : List Char → List Char → List String
  | [], acc => [String.mk acc.reverse]
  | c :: cs, acc =>
      if p c then String.mk acc.reverse :: splitByAux p cs []
      else splitByAux p cs (c :: acc)

/-- JS-style split of a string at every character satisfying `p`,
keeping empty pieces (`"".split` gives `[""]`, `"a  b".split(' ')` gives
`["a", "", "b"]`). -/
def splitBy (p : Char → Bool) (s : String) : List String :=
  splitByAux p s.data []

/-- The shape check of `verifyToken`: `const parts = authHeader.split(' ')`
then `parts.length !== 2 || parts[0] !== 'Bearer'` rejects.  JS
`split(' ')` splits on each single space character keeping empty pieces. -/
def headerShapeOk (h : String) : Bool :=
  let parts := splitBy (fun c => c = ' ') h
  parts.length = 2 && parts.head? = some "Bearer"

/-- `const token = parts[1]` for a header that passed the shape check. -/
def tokenPart (h : String) : String :=
  (splitBy (fun c => c = ' ') h).getD 1 ""

/-- Full observable outcome of one `verifyToken` call: its result, the
JWKS cache state after the call, whether a network fetch of the key set
occurred, and whether key-set resolution (`getJWKS`) was invoked at all. -/
structure VerifyOutcome where
  result : Except AuthError String
  cache : JWKSCache
  fetched : Bool
  resolvedKeys : Bool
deriving Repr

/-- `verifyToken(authHeader, supabaseUrl)` (`src/auth.ts` lines 37-74).
Missing header and bad shape throw before the `try` block; everything
inside the `try` (signature/issuer/audience/expiry failure and the
missing-`sub` check) is re-thrown wrapped as `JWT verification failed:`,
i.e. a rejected credential.  On success the non-empty `payload.sub` is
returned as the user id (`!payload.sub` catches both `undefined` and
`""`). -/
def verifyToken (authHeader : Option String) (supabaseUrl : String)
    (tokenOf : String → Option Token) (sigValid : String → String → Bool)
    (now : Nat) (cache : JWKSCache) : VerifyOutcome :=
  match authHeader with
  | none =>
      ⟨.error (.MalformedCredential "Missing Authorization header"), cache, false, false⟩
  | some h =>
      if headerShapeOk h then
        let token := tokenPart h
        let res := getJWKS supabaseUrl now cache
        let jwks := res.1
        let cache2 := res.2.1
        let fetched := res.2.2
        match jwtVerify tokenOf sigValid token jwks (supabaseUrl ++ "/auth/v1")
            "authenticated" now with
        | .error m =>
            ⟨.error (.CredentialRejected ("JWT verification failed: " ++ m)),
              cache2, fetched, true⟩
        | .ok tok =>
            match tok.sub with
            | none =>
                ⟨.error (.CredentialRejected "JWT verification failed: Token missing sub claim"),
                  cache2, fetched, true⟩
            | some s =>
                if s = "" then
                  ⟨.error (.CredentialRejected "JWT verification failed: Token missing sub claim"),
                    cache2, fetched, true⟩
                else
                  ⟨.ok s, cache2, fetched, true⟩
      else
        ⟨.error (.MalformedCredential "Invalid Authorization header format. Expected: Bearer <token>"),
          cache, false, false⟩

/-- Discriminator: the result is a `CredentialRejected` failure. -/
def isCredentialRejected : Except AuthError String → Bool
  | .error (.CredentialRejected _) => true
  | _ => false

/-- Discriminator: the result is a `MalformedCredential` failure. -/
def isMalformedCredential : Except AuthError String → Bool
  | .error (.MalformedCredential _) => true
  | _ => false

/-- Whitespace characters for the spec's reading of the header grammar. -/
def isWsChar (c : Char) : Bool :=
  c = ' ' || c = '\t' || c = '\n' || c = '\r'

/-- Stated from the spec's words, for comparison with `headerShapeOk`:
the header consists of exactly two whitespace-delimited parts with the
first part literally `Bearer`. -/
def specHeaderShapeOk (h : String) : Bool :=
  match (splitBy isWsChar h).filter (fun s => s ≠ "") with
  | [first, _] => first = "Bearer"
  | _ => false

/-! ## Report routes (`src/routes/reports.ts`) -/

/-- `ReportInitRequest` (`src/types.ts`): `has_microphone?`, `has_video?`.
Optional booleans; the handler only tests truthiness, so `some true`
requests the slot and `none`/`some false` do not. -/
structure ReportInitRequest where
  has_microphone : Option Bool
  has_video : Option Bool
deriving DecidableEq, Repr

/-- The JSON object returned by a successful `POST /reports/init`
(`src/routes/reports.ts` lines 85-96). -/
structure InitResponse where
  report_id : String
  audio_upload_url : String
  audio_upload_token : String
  audio_path : String
  microphone_upload_url : Option String
  microphone_upload_token : Option String
  microphone_path : Option String
  video_upload_url : Option String
  video_upload_token : Option String
  video_path : Option String
deriving DecidableEq, Repr

/-- Possible outcomes of the `/reports/init` handler: 200 with the grant
bundle, 401 (no user id in context), 500 missing configuration, or 500
grant issuance failure. -/
inductive InitOutcome where
  | success (resp : InitResponse)
  | unauthorized (msg : String)
  | configError (msg : String)
  | grantFailure (msg : String)
deriving DecidableEq, Repr

/-- Storage oracle: the external Supabase
`storage.from(bucket).createSignedUploadUrl(path)` call.  Modelled from
the spec's collaborator interface: on success it yields the signed URL
and the upload token; `none` is the error case.  The handler additionally
re-checks `!signed?.signedUrl`, i.e. treats an empty URL as failure. -/
def StorageOracle : Type := String → String → Option (String × String)

/-- One conditionally requested upload slot: if `want` is false no grant
is requested (`ok none`); otherwise the storage call's failure (or falsy
signed URL) is an error and success carries `(url, token, path)`. -/
def conditionalGrant (want : Bool) (storage : StorageOracle)
    (bucket path : String) : Except Unit (Option (String × String × String)) :=
  if want then
    match storage bucket path with
    | none => .error ()
    | some (u, t) => if u = "" then .error () else .ok (some (u, t, path))
  else
    .ok none

/-- The requested grant for `bucket`/`path` cannot be obtained: the
storage call errors or returns a falsy signed URL. -/
def grantFails (storage : StorageOracle) (bucket path : String) : Bool :=
  match storage bucket path with
  | none => true
  | some (u, _) => u = ""

/-- `POST /reports/init` handler body (`src/routes/reports.ts` lines
27-96), after `authMiddleware` has run: `userId` is the verified subject
from the middleware's context (`c.get('userId')`), `reportId` is the
value produced by the external `crypto.randomUUID()`, and `body` is the
parsed JSON body (`none` = `await c.req.json()` threw, which the handler
turns into `{}`). -/
def initHandler (userId : String) (env : Env) (body : Option ReportInitRequest)
    (reportId : String) (storage : StorageOracle) : InitOutcome :=
  if userId = "" then .unauthorized "User ID not found in token"
  else if falsyS env.SUPABASE_URL || falsyS env.SUPABASE_SERVICE_ROLE_KEY then
    .configError "Server configuration error"
  else
    let b := body.getD ⟨none, none⟩
    let audioPath := reportId ++ "/system_audio.wav"
    match storage "reports-audio" audioPath with
    | none => .grantFailure "Failed to create audio upload URL"
    | some (audioUrl, audioTok) =>
      if audioUrl = "" then .grantFailure "Failed to create audio upload URL"
      else
        match conditionalGrant (b.has_microphone = some true) storage
            "reports-audio" (reportId ++ "/microphone.wav") with
        | .error _ => .grantFailure "Failed to create microphone upload URL"
        | .ok mic =>
          match conditionalGrant (b.has_video = some true) storage
              "reports-video" (reportId ++ "/screen_recording.avi") with
          | .error _ => .grantFailure "Failed to create video upload URL"
          | .ok vid =>
            .success
              { report_id := reportId
                audio_upload_url := audioUrl
                audio_upload_token := audioTok
                audio_path := audioPath
                microphone_upload_url := mic.map (fun g => g.1)
                microphone_upload_token := mic.map (fun g => g.2.1)
                microphone_path := mic.map (fun g => g.2.2)
                video_upload_url := vid.map (fun g => g.1)
                video_upload_token := vid.map (fun g => g.2.1)
                video_path := vid.map (fun g => g.2.2) }

/-- Discriminator: the init outcome is a grant issuance failure (500). -/
def isGrantFailure : InitOutcome → Bool
  | .grantFailure _ => true
  | _ => false

/-- `ReportCompleteRequest` (`src/types.ts` plus the two game fields read
by the handler).  Every field of the parsed JSON body is optional; JSON
parsing keeps unknown members, so `extra_user_id` models a client-supplied
identity-like field present in the body — the handler never reads it. -/
structure ReportCompleteRequest where
  report_id : Option String
  game_name : Option String
  offender_name : Option String
  description : Option String
  targeted : Option Bool
  desired_action : Option String
  recording_start_utc : Option String
  flag_utc : Option String
  clip_start_offset_sec : Option Int
  clip_end_offset_sec : Option Int
  audio_path : Option String
  microphone_path : Option String
  video_path : Option String
  extra_user_id : Option String
deriving DecidableEq, Repr

/-- The row given to `supabase.from('reports').insert(reportData)`
(`src/routes/reports.ts` lines 130-145). -/
structure ReportRow where
  id : String
  user_id : String
  game_name : Option String
  offender_name : Option String
  description : Option String
  targeted : Option Bool
  desired_action : Option String
  recording_start_utc : Option String
  flag_utc : Option String
  clip_start_offset_sec : Option Int
  clip_end_offset_sec : Option Int
  audio_path : Option String
  video_path : Option String
  forwarded_to_modulate : Bool
deriving DecidableEq, Repr

/-- Observable outcome of one `/reports/complete` call: the row handed to
the database insert if one was attempted, the HTTP status, and the
success body fields. -/
structure CompleteOutcome where
  insert : Option ReportRow
  status : Nat
  ok : Bool
  report_id : Option String
deriving DecidableEq, Repr

/-- JS `x || null` on an optional string field: empty string maps to null. -/
def orNullS : Option String → Option String
  | none => none
  | some s => if s = "" then none else some s

/-- JS `Array.prototype.join(',')`. -/
def joinComma : List String → String
  | [] => ""
  | [x] => x
  | x :: xs => x ++ "," ++ joinComma xs

/-- `[body.audio_path, body.microphone_path].filter(Boolean).join(',')`
followed by `audioPaths || null`: drop absent/empty entries, join with a
comma, and map the empty result to null. -/
def combinedAudioPaths (a m : Option String) : Option String :=
  let joined := joinComma (([a, m].filterMap id).filter (fun s => s ≠ ""))
  if joined = "" then none else some joined

/-- The `reportData` object built by the `/reports/complete` handler
(`src/routes/reports.ts` lines 130-145): the row id is the body's
`report_id`, the owner is the verified `userId` from the middleware
context, `|| null` fields drop empty strings, `!== undefined` fields
keep `false`/`0`, the audio field is the comma-join of the audio and
microphone paths, and `forwarded_to_modulate` is fixed to `false`. -/
def reportDataOf (userId : String) (b : ReportCompleteRequest) : ReportRow :=
  { id := b.report_id.getD ""
    user_id := userId
    game_name := orNullS b.game_name
    offender_name := orNullS b.offender_name
    description := orNullS b.description
    targeted := b.targeted
    desired_action := orNullS b.desired_action
    recording_start_utc := orNullS b.recording_start_utc
    flag_utc := orNullS b.flag_utc
    clip_start_offset_sec := b.clip_start_offset_sec
    clip_end_offset_sec := b.clip_end_offset_sec
    audio_path := combinedAudioPaths b.audio_path b.microphone_path
    video_path := orNullS b.video_path
    forwarded_to_modulate := false }

/-- `POST /reports/complete` handler body (`src/routes/reports.ts` lines
102-163), after `authMiddleware`: `userId` is the verified subject from
the middleware, `body` is the parsed JSON body (`none` = parse error ⇒
400), and `dbError` is the external database insert (`some msg` = the
insert was rejected).  `!body.report_id` rejects an absent or empty
report id with 400 before the insert. -/
def completeHandler (userId : String) (env : Env)
    (body : Option ReportCompleteRequest) (dbError : ReportRow → Option String) :
    CompleteOutcome :=
  if userId = "" then { insert := none, status := 401, ok := false, report_id := none }
  else if falsyS env.SUPABASE_URL || falsyS env.SUPABASE_SERVICE_ROLE_KEY then
    { insert := none, status := 500, ok := false, report_id := none }
  else
    match body with
    | none => { insert := none, status := 400, ok := false, report_id := none }
    | some b =>
      if falsyS b.report_id then
        { insert := none, status := 400, ok := false, report_id := none }
      else
        let row : ReportRow := reportDataOf userId b
        match dbError row with
        | some _ => { insert := some row, status := 500, ok := false, report_id := none }
        | none => { insert := some row, status := 201, ok := true, report_id := b.report_id }

/-- An optional string the path-reconciliation logic treats as not
supplied: absent or empty. -/
def absentS (o : Option String) : Prop :=
  o = none ∨ o = some ""

/-! ## Helper lemmas -/

/-- A comma-joined pair of strings is never the empty string. -/
theorem append_comma_ne_empty (a m : String) : a ++ "," ++ m ≠ "" := by
  intro h
  have hd := congrArg String.data h
  simp [String.data_append] at hd

/-- Path reconciliation, both parts present and non-empty. -/
theorem combinedAudioPaths_both (a m : String) (ha : a ≠ "") (hm : m ≠ "") :
    combinedAudioPaths (some a) (some m) = some (a ++ "," ++ m) := by
  simp [combinedAudioPaths, joinComma, ha, hm, append_comma_ne_empty a m]

/-- Path reconciliation, only the audio part present. -/
theorem combinedAudioPaths_left (a : String) (m : Option String)
    (ha : a ≠ "") (hm : absentS m) :
    combinedAudioPaths (some a) m = some a := by
  rcases hm with rfl | rfl <;> simp [combinedAudioPaths, joinComma, ha]

/-- Path reconciliation, only the microphone part present. -/
theorem combinedAudioPaths_right (m : String) (a : Option String)
    (hm : m ≠ "") (ha : absentS a) :
    combinedAudioPaths a (some m) = some m := by
  rcases ha with rfl | rfl <;> simp [combinedAudioPaths, joinComma, hm]

/-- Path reconciliation, neither part present. -/
theorem combinedAudioPaths_none (a m : Option String)
    (ha : absentS a) (hm : absentS m) :
    combinedAudioPaths a m = none := by
  rcases ha with rfl | rfl <;> rcases hm with rfl | rfl <;>
    simp [combinedAudioPaths, joinComma]

/-- Inversion for `/reports/complete`: whenever a database insert is
attempted, the body's `report_id` passed the falsiness check and the
inserted row is exactly the `reportData` object built by the handler. -/
theorem completeHandler_insert_inv (u : String) (env : Env) (b : ReportCompleteRequest)
    (db : ReportRow → Option String) (row : ReportRow)
    (h : (completeHandler u env (some b) db).insert = some row) :
    falsyS b.report_id = false ∧ row = reportDataOf u b := by
  unfold completeHandler at h
  split at h
  · simp at h
  · split at h
    · simp at h
    · split at h
      · simp at h
      · split at h
        · simp at h
        · refine ⟨by simp_all, ?_⟩
          simp only [] at h
          split at h <;> simp_all

/-- Success equation for `/reports/complete`: with a verified user,
configured environment, a truthy `report_id` and an accepting database,
the handler inserts the `reportData` row and answers 201. -/
theorem completeHandler_eq_success (u : String) (env : Env) (b : ReportCompleteRequest)
    (db : ReportRow → Option String) (hu : u ≠ "")
    (henv : (falsyS env.SUPABASE_URL || falsyS env.SUPABASE_SERVICE_ROLE_KEY) = false)
    (hid : falsyS b.report_id = false) (hdb : db (reportDataOf u b) = none) :
    completeHandler u env (some b) db
      = { insert := some (reportDataOf u b), status := 201, ok := true,
          report_id := b.report_id } := by
  simp [completeHandler, hu, henv, hid, hdb]

/-- Inversion for `/reports/complete`: a 201 (`ok`) outcome implies the
user check, the configuration check, the `report_id` check and the
database insert all passed. -/
theorem completeHandler_ok_inv (u : String) (env : Env) (b : ReportCompleteRequest)
    (db : ReportRow → Option String)
    (hok : (completeHandler u env (some b) db).ok = true) :
    u ≠ "" ∧ (falsyS env.SUPABASE_URL || falsyS env.SUPABASE_SERVICE_ROLE_KEY) = false
    ∧ falsyS b.report_id = false ∧ db (reportDataOf u b) = none := by
  unfold completeHandler at hok
  split at hok
  · simp at hok
  · split at hok
    · simp at hok
    · split at hok
      · simp at hok
      · split at hok
        · simp at hok
        · simp only [] at hok
          split at hok
          · simp at hok
          · simp_all

/-- Claim C1 (confirmed): a finalize call that succeeds persists a row
whose owning subject identifier is exactly the Token Verifier's subject
for that request, and the whole outcome is unchanged when the body's
client-supplied identity field is varied. -/
theorem finalize_owner_is_verified_subject (u : String) (env : Env)
    (b : ReportCompleteRequest) (db : ReportRow → Option String) (x : Option String) :
    ((completeHandler u env (some b) db).ok = true →
      ∃ row, (completeHandler u env (some b) db).insert = some row ∧ row.user_id = u)
    ∧ completeHandler u env (some { b with extra_user_id := x }) db
        = completeHandler u env (some b) db := by
  refine ⟨?_, rfl⟩
  intro hok
  obtain ⟨hu, henv, hid, hdb⟩ := completeHandler_ok_inv u env b db hok
  rw [completeHandler_eq_success u env b db hu henv hid hdb]
  exact ⟨reportDataOf u b, rfl, rfl⟩

/-- Witness for C1 at a concrete request carrying a client-supplied
identity field. -/
theorem finalize_owner_is_verified_subject_witness :
    (∃ row, (completeHandler "user-1" ⟨some "https://s.example", some "service-key"⟩
        (some ⟨some "rid-1", none, none, none, none, none, none, none, none, none,
          none, none, none, some "body-user"⟩) (fun _ => none)).insert = some row
      ∧ row.user_id = "user-1")
    ∧ completeHandler "user-1" ⟨some "https://s.example", some "service-key"⟩
        (some { (⟨some "rid-1", none, none, none, none, none, none, none, none, none,
          none, none, none, some "body-user"⟩ : ReportCompleteRequest) with
            extra_user_id := some "other-user" }) (fun _ => none)
      = completeHandler "user-1" ⟨some "https://s.example", some "service-key"⟩
        (some ⟨some "rid-1", none, none, none, none, none, none, none, none, none,
          none, none, none, some "body-user"⟩) (fun _ => none) :=
  have h := finalize_owner_is_verified_subject "user-1"
    ⟨some "https://s.example", some "service-key"⟩
    ⟨some "rid-1", none, none, none, none, none, none, none, none, none,
      none, none, none, some "body-user"⟩ (fun _ => none) (some "other-user")
  ⟨h.1 rfl, h.2⟩

/-- Claim C5 (confirmed): path reconciliation of finalize — both paths
supplied gives the comma-join, exactly one gives that path alone,
neither gives an absent field; the video path is persisted independently
via the same empty-to-absent rule. -/
theorem finalize_path_reconciliation (u : String) (env : Env) (b : ReportCompleteRequest)
    (db : ReportRow → Option String) (row : ReportRow)
    (hrow : (completeHandler u env (some b) db).insert = some row) :
    ((∀ a m, b.audio_path = some a → a ≠ "" → b.microphone_path = some m → m ≠ "" →
        row.audio_path = some (a ++ "," ++ m))
      ∧ (∀ a, b.audio_path = some a → a ≠ "" → absentS b.microphone_path →
        row.audio_path = some a)
      ∧ (∀ m, b.microphone_path = some m → m ≠ "" → absentS b.audio_path →
        row.audio_path = some m)
      ∧ (absentS b.audio_path → absentS b.microphone_path → row.audio_path = none))
    ∧ row.video_path = orNullS b.video_path := by
  obtain ⟨-, rfl⟩ := completeHandler_insert_inv u env b db row hrow
  refine ⟨⟨?_, ?_, ?_, ?_⟩, rfl⟩
  · intro a m ha ha0 hm hm0
    show combinedAudioPaths b.audio_path b.microphone_path = _
    rw [ha, hm, combinedAudioPaths_both a m ha0 hm0]
  · intro a ha ha0 hm
    show combinedAudioPaths b.audio_path b.microphone_path = _
    rw [ha, combinedAudioPaths_left a b.microphone_path ha0 hm]
  · intro m hm hm0 ha
    show combinedAudioPaths b.audio_path b.microphone_path = _
    rw [hm, combinedAudioPaths_right m b.audio_path hm0 ha]
  · intro ha hm
    show combinedAudioPaths b.audio_path b.microphone_path = _
    rw [combinedAudioPaths_none b.audio_path b.microphone_path ha hm]

/-- Witness for C5: both paths supplied on a concrete request. -/
theorem finalize_path_reconciliation_witness :
    (reportDataOf "user-1" ⟨some "rid-1", none, none, none, none, none, none, none,
      none, none, some "a/x.wav", some "a/y.wav", none, none⟩).audio_path
      = some "a/x.wav,a/y.wav" :=
  have h := finalize_path_reconciliation "user-1"
    ⟨some "https://s.example", some "service-key"⟩
    ⟨some "rid-1", none, none, none, none, none, none, none,
      none, none, some "a/x.wav", some "a/y.wav", none, none⟩
    (fun _ => none) (reportDataOf "user-1" ⟨some "rid-1", none, none, none, none,
      none, none, none, none, none, some "a/x.wav", some "a/y.wav", none, none⟩) rfl
  h.1.1 "a/x.wav" "a/y.wav" rfl (by decide) rfl (by decide)

/-- Claim C6 (confirmed): on an authenticated, configured call whose body
lacks a non-empty `report_id`, finalize answers 400 with no database
insertion attempted. -/
theorem finalize_missing_report_id (u : String) (env : Env) (b : ReportCompleteRequest)
    (db : ReportRow → Option String) (hu : u ≠ "")
    (henv : (falsyS env.SUPABASE_URL || falsyS env.SUPABASE_SERVICE_ROLE_KEY) = false)
    (hid : falsyS b.report_id = true) :
    completeHandler u env (some b) db
      = { insert := none, status := 400, ok := false, report_id := none } := by
  simp [completeHandler, hu, henv, hid]

/-- Witness for C6 at a concrete body with no `report_id`. -/
theorem finalize_missing_report_id_witness :
    completeHandler "user-1" ⟨some "https://s.example", some "service-key"⟩
        (some ⟨none, none, none, none, none, none, none, none, none, none,
          some "a/x.wav", none, none, none⟩) (fun _ => none)
      = { insert := none, status := 400, ok := false, report_id := none } :=
  finalize_missing_report_id "user-1" ⟨some "https://s.example", some "service-key"⟩
    ⟨none, none, none, none, none, none, none, none, none, none,
      some "a/x.wav", none, none, none⟩ (fun _ => none)
    (by decide) rfl rfl

/-- A conditionally requested grant that lands in the `ok` branch is
present exactly when the slot was requested. -/
theorem conditionalGrant_want (w : Bool) (storage : StorageOracle) (bucket path : String)
    (g : Option (String × String × String))
    (h : conditionalGrant w storage bucket path = .ok g) : g.isSome = w := by
  unfold conditionalGrant at h
  cases w
  · simp at h
    simp [← h]
  · simp only [if_true] at h
    split at h
    · simp at h
    · split at h
      · simp at h
      · simp at h
        simp [← h]

/-- Inversion for `/reports/init`: a 200 outcome carries the generated
report id, a non-falsy audio URL, the canonical audio path, and optional
grants present exactly per the requested slots. -/
theorem initHandler_success_inv (u : String) (env : Env) (body : Option ReportInitRequest)
    (rid : String) (storage : StorageOracle) (resp : InitResponse)
    (h : initHandler u env body rid storage = .success resp) :
    resp.report_id = rid
    ∧ resp.audio_upload_url ≠ ""
    ∧ resp.audio_path = rid ++ "/system_audio.wav"
    ∧ resp.microphone_upload_url.isSome
        = decide ((body.getD ⟨none, none⟩).has_microphone = some true)
    ∧ resp.microphone_upload_token.isSome
        = decide ((body.getD ⟨none, none⟩).has_microphone = some true)
    ∧ resp.microphone_path.isSome
        = decide ((body.getD ⟨none, none⟩).has_microphone = some true)
    ∧ resp.video_upload_url.isSome
        = decide ((body.getD ⟨none, none⟩).has_video = some true)
    ∧ resp.video_upload_token.isSome
        = decide ((body.getD ⟨none, none⟩).has_video = some true)
    ∧ resp.video_path.isSome
        = decide ((body.getD ⟨none, none⟩).has_video = some true) := by
  unfold initHandler at h
  split at h
  · simp at h
  · split at h
    · simp at h
    · simp only [] at h
      split at h
      · simp at h
      · split at h
        · simp at h
        · rename_i audioUrl audioTok heqa hne
          split at h
          · simp at h
          · rename_i mic heqm
            split at h
            · simp at h
            · rename_i vid heqv
              have hmic := conditionalGrant_want _ storage _ _ mic heqm
              have hvid := conditionalGrant_want _ storage _ _ vid heqv
              cases h
              refine ⟨rfl, hne, rfl, ?_, ?_, ?_, ?_, ?_, ?_⟩ <;>
                cases mic <;> cases vid <;> simp_all

/-- Claim C4 (confirmed): a successful initiate returns the generated
report identifier and an audio grant, and returns a non-null microphone
grant (URL, token, path) iff `has_microphone` was true, and a non-null
video grant iff `has_video` was true. -/
theorem init_grant_bundle_iff (u : String) (env : Env) (body : Option ReportInitRequest)
    (rid : String) (storage : StorageOracle) (resp : InitResponse)
    (h : initHandler u env body rid storage = .success resp) :
    resp.report_id = rid
    ∧ resp.audio_upload_url ≠ ""
    ∧ resp.audio_path = rid ++ "/system_audio.wav"
    ∧ ((resp.microphone_upload_url ≠ none ∧ resp.microphone_upload_token ≠ none
        ∧ resp.microphone_path ≠ none)
      ↔ (body.getD ⟨none, none⟩).has_microphone = some true)
    ∧ ((resp.video_upload_url ≠ none ∧ resp.video_upload_token ≠ none
        ∧ resp.video_path ≠ none)
      ↔ (body.getD ⟨none, none⟩).has_video = some true) := by
  obtain ⟨h1, h2, h3, hmu, hmt, hmp, hvu, hvt, hvp⟩ :=
    initHandler_success_inv u env body rid storage resp h
  refine ⟨h1, h2, h3, ?_, ?_⟩
  · rw [Option.ne_none_iff_isSome, Option.ne_none_iff_isSome, Option.ne_none_iff_isSome,
      hmu, hmt, hmp]
    simp
  · rw [Option.ne_none_iff_isSome, Option.ne_none_iff_isSome, Option.ne_none_iff_isSome,
      hvu, hvt, hvp]
    simp

/-- Witness for C4: a concrete initiate requesting the microphone slot
but not the video slot. -/
theorem init_grant_bundle_iff_witness :
    ({ report_id := "rid-1"
       audio_upload_url := "https://u/rid-1/system_audio.wav"
       audio_upload_token := "tok"
       audio_path := "rid-1/system_audio.wav"
       microphone_upload_url := some "https://u/rid-1/microphone.wav"
       microphone_upload_token := some "tok"
       microphone_path := some "rid-1/microphone.wav"
       video_upload_url := none
       video_upload_token := none
       video_path := none } : InitResponse).report_id = "rid-1"
    ∧ ({ report_id := "rid-1"
         audio_upload_url := "https://u/rid-1/system_audio.wav"
         audio_upload_token := "tok"
         audio_path := "rid-1/system_audio.wav"
         microphone_upload_url := some "https://u/rid-1/microphone.wav"
         microphone_upload_token := some "tok"
         microphone_path := some "rid-1/microphone.wav"
         video_upload_url := none
         video_upload_token := none
         video_path := none } : InitResponse).audio_upload_url ≠ ""
    ∧ ({ report_id := "rid-1"
         audio_upload_url := "https://u/rid-1/system_audio.wav"
         audio_upload_token := "tok"
         audio_path := "rid-1/system_audio.wav"
         microphone_upload_url := some "https://u/rid-1/microphone.wav"
         microphone_upload_token := some "tok"
         microphone_path := some "rid-1/microphone.wav"
         video_upload_url := none
         video_upload_token := none
         video_path := none } : InitResponse).audio_path = "rid-1" ++ "/system_audio.wav"
    ∧ ((({ report_id := "rid-1"
           audio_upload_url := "https://u/rid-1/system_audio.wav"
           audio_upload_token := "tok"
           audio_path := "rid-1/system_audio.wav"
           microphone_upload_url := some "https://u/rid-1/microphone.wav"
           microphone_upload_token := some "tok"
           microphone_path := some "rid-1/microphone.wav"
           video_upload_url := none
           video_upload_token := none
           video_path := none } : InitResponse).microphone_upload_url ≠ none
        ∧ ({ report_id := "rid-1"
             audio_upload_url := "https://u/rid-1/system_audio.wav"
             audio_upload_token := "tok"
             audio_path := "rid-1/system_audio.wav"
             microphone_upload_url := some "https://u/rid-1/microphone.wav"
             microphone_upload_token := some "tok"
             microphone_path := some "rid-1/microphone.wav"
             video_upload_url := none
             video_upload_token := none
             video_path := none } : InitResponse).microphone_upload_token ≠ none
        ∧ ({ report_id := "rid-1"
             audio_upload_url := "https://u/rid-1/system_audio.wav"
             audio_upload_token := "tok"
             audio_path := "rid-1/system_audio.wav"
             microphone_upload_url := some "https://u/rid-1/microphone.wav"
             microphone_upload_token := some "tok"
             microphone_path := some "rid-1/microphone.wav"
             video_upload_url := none
             video_upload_token := none
             video_path := none } : InitResponse).microphone_path ≠ none)
      ↔ ((some (⟨some true, some false⟩ : ReportInitRequest)).getD
          ⟨none, none⟩).has_microphone = some true)
    ∧ ((({ report_id := "rid-1"
           audio_upload_url := "https://u/rid-1/system_audio.wav"
           audio_upload_token := "tok"
           audio_path := "rid-1/system_audio.wav"
           microphone_upload_url := some "https://u/rid-1/microphone.wav"
           microphone_upload_token := some "tok"
           microphone_path := some "rid-1/microphone.wav"
           video_upload_url := none
           video_upload_token := none
           video_path := none } : InitResponse).video_upload_url ≠ none
        ∧ ({ report_id := "rid-1"
             audio_upload_url := "https://u/rid-1/system_audio.wav"
             audio_upload_token := "tok"
             audio_path := "rid-1/system_audio.wav"
             microphone_upload_url := some "https://u/rid-1/microphone.wav"
             microphone_upload_token := some "tok"
             microphone_path := some "rid-1/microphone.wav"
             video_upload_url := none
             video_upload_token := none
             video_path := none } : InitResponse).video_upload_token ≠ none
        ∧ ({ report_id := "rid-1"
             audio_upload_url := "https://u/rid-1/system_audio.wav"
             audio_upload_token := "tok"
             audio_path := "rid-1/system_audio.wav"
             microphone_upload_url := some "https://u/rid-1/microphone.wav"
             microphone_upload_token := some "tok"
             microphone_path := some "rid-1/microphone.wav"
             video_upload_url := none
             video_upload_token := none
             video_path := none } : InitResponse).video_path ≠ none)
      ↔ ((some (⟨some true, some false⟩ : ReportInitRequest)).getD
          ⟨none, none⟩).has_video = some true) :=
  init_grant_bundle_iff "user-1" ⟨some "https://s.example", some "service-key"⟩
    (some ⟨some true, some false⟩) "rid-1"
    (fun _ p => some ("https://u/" ++ p, "tok")) _ rfl

/-- Claim C7 (confirmed): on an authenticated, configured initiate call,
if any requested grant (the mandatory audio grant, or a requested
microphone or video grant) cannot be obtained, the whole call is a
`GrantIssuanceFailed` 500 — in particular not a success, so no partial
grant bundle is returned. -/
theorem init_grant_failure_aborts (u : String) (env : Env) (body : Option ReportInitRequest)
    (rid : String) (storage : StorageOracle) (hu : u ≠ "")
    (henv : (falsyS env.SUPABASE_URL || falsyS env.SUPABASE_SERVICE_ROLE_KEY) = false)
    (hfail : grantFails storage "reports-audio" (rid ++ "/system_audio.wav") = true
      ∨ ((body.getD ⟨none, none⟩).has_microphone = some true
          ∧ grantFails storage "reports-audio" (rid ++ "/microphone.wav") = true)
      ∨ ((body.getD ⟨none, none⟩).has_video = some true
          ∧ grantFails storage "reports-video" (rid ++ "/screen_recording.avi") = true)) :
    isGrantFailure (initHandler u env body rid storage) = true
    ∧ ∀ resp, initHandler u env body rid storage ≠ .success resp := by
  have hmain : isGrantFailure (initHandler u env body rid storage) = true := by
    unfold initHandler
    simp only [hu, henv, if_false, Bool.false_eq_true, if_neg, ite_false]
    rcases haud : storage "reports-audio" (rid ++ "/system_audio.wav") with _ | ⟨aurl, atok⟩
    · simp [isGrantFailure]
    · by_cases ha : aurl = ""
      · simp [ha, isGrantFailure]
      · have haok : grantFails storage "reports-audio" (rid ++ "/system_audio.wav") = false := by
          simp [grantFails, haud, ha]
        rcases hfail with h1 | ⟨hm, h2⟩ | ⟨hv, h3⟩
        · rw [haok] at h1; exact absurd h1 (by simp)
        · have : conditionalGrant
              (decide ((body.getD ⟨none, none⟩).has_microphone = some true)) storage
              "reports-audio" (rid ++ "/microphone.wav") = .error () := by
            rcases hmic : storage "reports-audio" (rid ++ "/microphone.wav")
              with _ | ⟨murl, mtok⟩
            · simp [conditionalGrant, hm, hmic]
            · have : murl = "" := by simpa [grantFails, hmic] using h2
              simp [conditionalGrant, hm, hmic, this]
          simp [ha, this, isGrantFailure]
        · rcases hmg : conditionalGrant
              (decide ((body.getD ⟨none, none⟩).has_microphone = some true)) storage
              "reports-audio" (rid ++ "/microphone.wav") with _ | mic
          · simp [ha, hmg, isGrantFailure]
          · have : conditionalGrant
                (decide ((body.getD ⟨none, none⟩).has_video = some true)) storage
                "reports-video" (rid ++ "/screen_recording.avi") = .error () := by
              rcases hvid : storage "reports-video" (rid ++ "/screen_recording.avi")
                with _ | ⟨vurl, vtok⟩
              · simp [conditionalGrant, hv, hvid]
              · have : vurl = "" := by simpa [grantFails, hvid] using h3
                simp [conditionalGrant, hv, hvid, this]
            simp [ha, hmg, this, isGrantFailure]
  refine ⟨hmain, ?_⟩
  intro resp hcon
  rw [hcon] at hmain
  simp [isGrantFailure] at hmain

/-- Witness for C7: the video slot is requested and its grant fails while
the audio grant succeeds. -/
theorem init_grant_failure_aborts_witness :
    isGrantFailure (initHandler "user-1" ⟨some "https://s.example", some "service-key"⟩
        (some ⟨none, some true⟩) "rid-1"
        (fun bucket p => if bucket = "reports-video" then none
          else some ("https://u/" ++ p, "tok"))) = true
    ∧ ∀ resp, initHandler "user-1" ⟨some "https://s.example", some "service-key"⟩
        (some ⟨none, some true⟩) "rid-1"
        (fun bucket p => if bucket = "reports-video" then none
          else some ("https://u/" ++ p, "tok")) ≠ .success resp :=
  init_grant_failure_aborts "user-1" ⟨some "https://s.example", some "service-key"⟩
    (some ⟨none, some true⟩) "rid-1"
    (fun bucket p => if bucket = "reports-video" then none
      else some ("https://u/" ++ p, "tok"))
    (by decide) rfl (Or.inr (Or.inr ⟨rfl, rfl⟩))

/-- Claim C10 (confirmed): an absent/unparseable init body behaves exactly
like the empty object — the call proceeds and a success carries null
microphone and video fields — whereas an unparseable finalize body is a
400 with no insertion. -/
theorem init_body_parse_leniency (u : String) (env : Env) (rid : String)
    (storage : StorageOracle) (db : ReportRow → Option String) :
    initHandler u env none rid storage = initHandler u env (some ⟨none, none⟩) rid storage
    ∧ (∀ resp, initHandler u env none rid storage = .success resp →
        resp.microphone_upload_url = none ∧ resp.microphone_upload_token = none
        ∧ resp.microphone_path = none ∧ resp.video_upload_url = none
        ∧ resp.video_upload_token = none ∧ resp.video_path = none)
    ∧ (u ≠ "" → (falsyS env.SUPABASE_URL || falsyS env.SUPABASE_SERVICE_ROLE_KEY) = false →
        completeHandler u env none db
          = { insert := none, status := 400, ok := false, report_id := none }) := by
  refine ⟨rfl, ?_, ?_⟩
  · intro resp h
    obtain ⟨-, -, -, hmu, hmt, hmp, hvu, hvt, hvp⟩ :=
      initHandler_success_inv u env none rid storage resp h
    refine ⟨Option.not_isSome_iff_eq_none.mp (by simp [hmu]),
      Option.not_isSome_iff_eq_none.mp (by simp [hmt]),
      Option.not_isSome_iff_eq_none.mp (by simp [hmp]),
      Option.not_isSome_iff_eq_none.mp (by simp [hvu]),
      Option.not_isSome_iff_eq_none.mp (by simp [hvt]),
      Option.not_isSome_iff_eq_none.mp (by simp [hvp])⟩
  · intro hu henv
    simp [completeHandler, hu, henv]

/-- Witness for C10: concrete unparseable bodies on both routes. -/
theorem init_body_parse_leniency_witness :
    initHandler "user-1" ⟨some "https://s.example", some "service-key"⟩ none "rid-1"
        (fun _ p => some ("https://u/" ++ p, "tok"))
      = initHandler "user-1" ⟨some "https://s.example", some "service-key"⟩
        (some ⟨none, none⟩) "rid-1" (fun _ p => some ("https://u/" ++ p, "tok"))
    ∧ completeHandler "user-1" ⟨some "https://s.example", some "service-key"⟩ none
        (fun _ => none)
      = { insert := none, status := 400, ok := false, report_id := none } :=
  have h := init_body_parse_leniency "user-1" ⟨some "https://s.example", some "service-key"⟩
    "rid-1" (fun _ p => some ("https://u/" ++ p, "tok")) (fun _ => none)
  ⟨h.1, h.2.2 (by decide) rfl⟩

/-- Counterexample to C9 as stated: a finalize call persists, with status
201, a row whose identifier is exactly the identifier string chosen by
the caller in the request body.  `completeHandler` takes no record of
identifiers produced by `/reports/init` (no such state exists — no row is
written at init), so this identifier is caller-chosen, not one produced
by the Orchestrator: in this run no initiate call ever generated
`"attacker-chosen-id"`. -/
theorem persisted_id_client_chosen_counterexample :
    (completeHandler "victim-user" ⟨some "https://s.example", some "service-key"⟩
        (some ⟨some "attacker-chosen-id", none, none, none, none, none, none, none,
          none, none, none, none, none, none⟩) (fun _ => none)).insert
      = some (reportDataOf "victim-user"
          ⟨some "attacker-chosen-id", none, none, none, none, none, none, none,
            none, none, none, none, none, none⟩)
    ∧ (reportDataOf "victim-user"
        ⟨some "attacker-chosen-id", none, none, none, none, none, none, none,
          none, none, none, none, none, none⟩).id = "attacker-chosen-id"
    ∧ (completeHandler "victim-user" ⟨some "https://s.example", some "service-key"⟩
        (some ⟨some "attacker-chosen-id", none, none, none, none, none, none, none,
          none, none, none, none, none, none⟩) (fun _ => none)).status = 201 :=
  ⟨rfl, rfl, rfl⟩

/-- Claim C9 (amended): initiate's successful response carries exactly
the freshly generated random identifier (`crypto.randomUUID`'s output),
independent of the request input; finalize persists as the row identifier
exactly the `report_id` echoed by the client in the body, trusting and
not verifying that it is one produced by initiate. -/
theorem report_id_generated_and_echoed :
    (∀ u env body rid storage resp,
        initHandler u env body rid storage = .success resp → resp.report_id = rid)
    ∧ (∀ u env b db row, (completeHandler u env (some b) db).insert = some row →
        b.report_id = some row.id) := by
  constructor
  · intro u env body rid storage resp h
    exact (initHandler_success_inv u env body rid storage resp h).1
  · intro u env b db row h
    obtain ⟨hfal, rfl⟩ := completeHandler_insert_inv u env b db row h
    rcases hb : b.report_id with _ | rid
    · rw [hb] at hfal; simp [falsyS] at hfal
    · simp [reportDataOf, hb]

/-- Witness for the amended C9 at a concrete initiate and finalize pair. -/
theorem report_id_generated_and_echoed_witness :
    ({ report_id := "rid-1"
       audio_upload_url := "https://u/rid-1/system_audio.wav"
       audio_upload_token := "tok"
       audio_path := "rid-1/system_audio.wav"
       microphone_upload_url := none
       microphone_upload_token := none
       microphone_path := none
       video_upload_url := none
       video_upload_token := none
       video_path := none } : InitResponse).report_id = "rid-1"
    ∧ (some "rid-1" : Option String)
      = some (reportDataOf "user-1" ⟨some "rid-1", none, none, none, none, none, none,
          none, none, none, none, none, none, none⟩).id :=
  have h := report_id_generated_and_echoed
  ⟨h.1 "user-1" ⟨some "https://s.example", some "service-key"⟩ (some ⟨none, none⟩)
      "rid-1" (fun _ p => some ("https://u/" ++ p, "tok")) _ rfl,
    h.2 "user-1" ⟨some "https://s.example", some "service-key"⟩
      ⟨some "rid-1", none, none, none, none, none, none, none, none, none,
        none, none, none, none⟩ (fun _ => none) _ rfl⟩

/-- Cache hit: a cached key set whose age is within the TTL is reused
unchanged with no fetch. -/
theorem getJWKS_fresh (url : String) (now : Nat) (cache : JWKSCache) (j : String)
    (hj : cache.jwks = some j) (hfresh : now - cache.timestamp ≤ JWKS_CACHE_TTL) :
    getJWKS url now cache = (j, cache, false) := by
  simp only [getJWKS, hj]
  rw [if_neg (by omega)]

/-- Cache miss or staleness: the entry is replaced (value and timestamp)
and a fetch occurs. -/
theorem getJWKS_stale (url : String) (now : Nat) (cache : JWKSCache)
    (hst : cache.jwks = none ∨ now - cache.timestamp > JWKS_CACHE_TTL) :
    getJWKS url now cache = (jwksUrlOf url, ⟨some (jwksUrlOf url), now⟩, true) := by
  rcases hj : cache.jwks with _ | j
  · simp [getJWKS, hj]
  · rcases hst with h | h
    · rw [hj] at h; cases h
    · simp [getJWKS, hj, h]

/-- If `getJWKS` fetched, the new cache entry holds the fresh key set and
the call time. -/
theorem getJWKS_fetch_inv (url : String) (now : Nat) (cache : JWKSCache)
    (hf : (getJWKS url now cache).2.2 = true) :
    (getJWKS url now cache).2.1 = ⟨some (jwksUrlOf url), now⟩ := by
  rcases hj : cache.jwks with _ | j
  · simp [getJWKS, hj]
  · by_cases hc : now - cache.timestamp > JWKS_CACHE_TTL
    · simp [getJWKS, hj, hc]
    · simp [getJWKS, hj, hc] at hf

/-- A missing or malformed-shape header is rejected as a malformed
credential before key-set resolution: cache untouched, nothing fetched,
`getJWKS` never invoked. -/
theorem verifyToken_malformed_helper (h : Option String) (url : String)
    (tokenOf : String → Option Token) (sigValid : String → String → Bool)
    (now : Nat) (cache : JWKSCache)
    (hbad : h = none ∨ ∃ s, h = some s ∧ headerShapeOk s = false) :
    isMalformedCredential (verifyToken h url tokenOf sigValid now cache).result = true
    ∧ (verifyToken h url tokenOf sigValid now cache).cache = cache
    ∧ (verifyToken h url tokenOf sigValid now cache).fetched = false
    ∧ (verifyToken h url tokenOf sigValid now cache).resolvedKeys = false := by
  rcases hbad with rfl | ⟨s, rfl, hs⟩
  · exact ⟨rfl, rfl, rfl, rfl⟩
  · simp [verifyToken, hs, isMalformedCredential]

/-- A shape-valid header always resolves the key set: the outcome's cache
and fetch flag are exactly those of `getJWKS`. -/
theorem verifyToken_resolution (s : String) (url : String)
    (tokenOf : String → Option Token) (sigValid : String → String → Bool)
    (now : Nat) (cache : JWKSCache) (hs : headerShapeOk s = true) :
    (verifyToken (some s) url tokenOf sigValid now cache).cache
      = (getJWKS url now cache).2.1
    ∧ (verifyToken (some s) url tokenOf sigValid now cache).fetched
      = (getJWKS url now cache).2.2
    ∧ (verifyToken (some s) url tokenOf sigValid now cache).resolvedKeys = true := by
  rcases hjv : jwtVerify tokenOf sigValid (tokenPart s) (getJWKS url now cache).1
      (url ++ "/auth/v1") "authenticated" now with m | tok
  · simp [verifyToken, hs, hjv]
  · rcases hsub : tok.sub with _ | sv
    · simp [verifyToken, hs, hjv, hsub]
    · by_cases hsv : sv = "" <;> simp [verifyToken, hs, hjv, hsub, hsv]

/-- Claim C8 (confirmed): the key-set cache policy — fresh entries are
reused without replacement or fetch; missing/stale entries are replaced
(value and timestamp) with one fetch; two verify calls within one TTL
window fetch at most once; a verify call on a stale entry triggers
exactly one refresh. -/
theorem jwks_cache_ttl_policy :
    (∀ url now cache j, (cache : JWKSCache).jwks = some j →
        now - cache.timestamp ≤ JWKS_CACHE_TTL →
        getJWKS url now cache = (j, cache, false))
    ∧ (∀ url now cache, (cache : JWKSCache).jwks = none ∨
          now - cache.timestamp > JWKS_CACHE_TTL →
        getJWKS url now cache = (jwksUrlOf url, ⟨some (jwksUrlOf url), now⟩, true))
    ∧ (∀ h1 h2 url1 url2 tokenOf1 tokenOf2 sigValid1 sigValid2 t1 t2 cache,
        t2 - t1 ≤ JWKS_CACHE_TTL →
        ¬((verifyToken h1 url1 tokenOf1 sigValid1 t1 cache).fetched = true
          ∧ (verifyToken h2 url2 tokenOf2 sigValid2 t2
              (verifyToken h1 url1 tokenOf1 sigValid1 t1 cache).cache).fetched = true))
    ∧ (∀ s url tokenOf sigValid now cache j, (cache : JWKSCache).jwks = some j →
        now - cache.timestamp > JWKS_CACHE_TTL → headerShapeOk s = true →
        (verifyToken (some s) url tokenOf sigValid now cache).fetched = true
        ∧ (verifyToken (some s) url tokenOf sigValid now cache).cache
          = ⟨some (jwksUrlOf url), now⟩) := by
  refine ⟨?_, ?_, ?_, ?_⟩
  · intro url now cache j hj hfresh
    exact getJWKS_fresh url now cache j hj hfresh
  · intro url now cache hst
    exact getJWKS_stale url now cache hst
  · intro h1 h2 url1 url2 to1 to2 sv1 sv2 t1 t2 cache httl hboth
    obtain ⟨hf1, hf2⟩ := hboth
    rcases h1 with _ | s1
    · simp [verifyToken] at hf1
    · by_cases hs1 : headerShapeOk s1
      · obtain ⟨hc1, hfe1, -⟩ := verifyToken_resolution s1 url1 to1 sv1 t1 cache hs1
        rw [hfe1] at hf1
        have hcache1 : (verifyToken (some s1) url1 to1 sv1 t1 cache).cache
            = ⟨some (jwksUrlOf url1), t1⟩ := by
          rw [hc1]; exact getJWKS_fetch_inv url1 t1 cache hf1
        rcases h2 with _ | s2
        · simp [verifyToken] at hf2
        · by_cases hs2 : headerShapeOk s2
          · obtain ⟨-, hfe2, -⟩ := verifyToken_resolution s2 url2 to2 sv2 t2
              ((verifyToken (some s1) url1 to1 sv1 t1 cache).cache) hs2
            rw [hfe2, hcache1] at hf2
            rw [getJWKS_fresh url2 t2 ⟨some (jwksUrlOf url1), t1⟩ (jwksUrlOf url1) rfl
              (by simpa using httl)] at hf2
            cases hf2
          · obtain ⟨-, -, hfe2, -⟩ := verifyToken_malformed_helper (some s2) url2 to2 sv2 t2
              ((verifyToken (some s1) url1 to1 sv1 t1 cache).cache)
              (Or.inr ⟨s2, rfl, by simpa using hs2⟩)
            rw [hfe2] at hf2
            cases hf2
      · obtain ⟨-, -, hfe1, -⟩ := verifyToken_malformed_helper (some s1) url1 to1 sv1 t1
          cache (Or.inr ⟨s1, rfl, by simpa using hs1⟩)
        rw [hfe1] at hf1
        cases hf1
  · intro s url tokenOf sigValid now cache j hj hstale hs
    obtain ⟨hc, hfe, -⟩ := verifyToken_resolution s url tokenOf sigValid now cache hs
    have hg := getJWKS_stale url now cache (Or.inr hstale)
    constructor
    · rw [hfe, hg]
    · rw [hc, hg]

/-- If the cache never holds a key set other than the trusted issuer's,
resolution always yields the trusted issuer's key set. -/
theorem getJWKS_url (url : String) (now : Nat) (cache : JWKSCache)
    (hc : ∀ j, cache.jwks = some j → j = jwksUrlOf url) :
    (getJWKS url now cache).1 = jwksUrlOf url := by
  rcases hj : cache.jwks with _ | j
  · simp [getJWKS, hj]
  · by_cases hcond : now - cache.timestamp > JWKS_CACHE_TTL
    · simp [getJWKS, hj, hcond]
    · simp [getJWKS, hj, hcond, hc j hj]

/-- Inversion of the modelled `jwtVerify`: a successful verification
means the token decoded, the signature verified against the given key
set, the issuer and audience claims match, and the expiry is in the
future. -/
theorem jwtVerify_ok_inv (tokenOf : String → Option Token)
    (sigValid : String → String → Bool) (token jwks issuer audience : String)
    (now : Nat) (tok : Token)
    (h : jwtVerify tokenOf sigValid token jwks issuer audience now = .ok tok) :
    tokenOf token = some tok ∧ sigValid token jwks = true ∧ tok.iss = issuer
    ∧ tok.aud = audience ∧ now < tok.exp := by
  unfold jwtVerify at h
  split at h
  · exact Except.noConfusion h
  · rename_i tok2 hto
    split at h
    · exact Except.noConfusion h
    · split at h
      · exact Except.noConfusion h
      · split at h
        · exact Except.noConfusion h
        · split at h
          · exact Except.noConfusion h
          · injection h with h2
            subst h2
            simp_all

/-- With a shape-valid header the verifier never reports a malformed
credential. -/
theorem verifyToken_shape_ok_not_malformed (hdr : String) (url : String)
    (tokenOf : String → Option Token) (sigValid : String → String → Bool)
    (now : Nat) (cache : JWKSCache) (hs : headerShapeOk hdr = true) :
    isMalformedCredential
      (verifyToken (some hdr) url tokenOf sigValid now cache).result = false := by
  rcases hjv : jwtVerify tokenOf sigValid (tokenPart hdr) (getJWKS url now cache).1
      (url ++ "/auth/v1") "authenticated" now with m | tok
  · simp [verifyToken, hs, hjv, isMalformedCredential]
  · rcases hsub : tok.sub with _ | sv
    · simp [verifyToken, hs, hjv, hsub, isMalformedCredential]
    · by_cases hsv : sv = "" <;>
        simp [verifyToken, hs, hjv, hsub, hsv, isMalformedCredential]

/-- Inversion of a successful `verifyToken`: the header had a valid
shape and the extracted token satisfied signature, issuer, audience,
expiry and the non-empty subject check, the returned user id being that
subject. -/
theorem verifyToken_ok_inv (hdr : String) (url : String)
    (tokenOf : String → Option Token) (sigValid : String → String → Bool)
    (now : Nat) (cache : JWKSCache) (s : String)
    (hres : (verifyToken (some hdr) url tokenOf sigValid now cache).result = .ok s) :
    headerShapeOk hdr = true
    ∧ ∃ tok, tokenOf (tokenPart hdr) = some tok
      ∧ sigValid (tokenPart hdr) (getJWKS url now cache).1 = true
      ∧ tok.iss = url ++ "/auth/v1" ∧ tok.aud = "authenticated"
      ∧ now < tok.exp ∧ tok.sub = some s ∧ s ≠ "" := by
  by_cases hs : headerShapeOk hdr
  case neg => simp [verifyToken, hs] at hres
  refine ⟨hs, ?_⟩
  rcases hjv : jwtVerify tokenOf sigValid (tokenPart hdr) (getJWKS url now cache).1
      (url ++ "/auth/v1") "authenticated" now with m | tok
  · simp [verifyToken, hs, hjv] at hres
  · rcases hsub : tok.sub with _ | sv
    · simp [verifyToken, hs, hjv, hsub] at hres
    · by_cases hsv : sv = ""
      · simp [verifyToken, hs, hjv, hsub, hsv] at hres
      · have hsv2 : sv = s := by
          simpa [verifyToken, hs, hjv, hsub, hsv] using hres
        subst hsv2
        obtain ⟨hto, hsig, hiss, haud, hexp⟩ :=
          jwtVerify_ok_inv tokenOf sigValid (tokenPart hdr) (getJWKS url now cache).1
            (url ++ "/auth/v1") "authenticated" now tok hjv
        exact ⟨tok, hto, hsig, hiss, haud, hexp, hsub, hsv⟩

/-- Witness for C8: a fresh hit at exactly the TTL boundary, a stale
replacement, two in-window verify calls, and a stale-entry verify call. -/
theorem jwks_cache_ttl_policy_witness :
    getJWKS "https://s.example" 3600000 ⟨some "cached-set", 0⟩
      = ("cached-set", ⟨some "cached-set", 0⟩, false)
    ∧ getJWKS "https://s.example" 7200001 ⟨some "cached-set", 3600000⟩
      = (jwksUrlOf "https://s.example",
          ⟨some (jwksUrlOf "https://s.example"), 7200001⟩, true)
    ∧ ¬((verifyToken (some "Bearer t1") "https://s.example" (fun _ => none)
          (fun _ _ => false) 5 ⟨none, 0⟩).fetched = true
        ∧ (verifyToken (some "Bearer t2") "https://s.example" (fun _ => none)
            (fun _ _ => false) 10
            ((verifyToken (some "Bearer t1") "https://s.example" (fun _ => none)
              (fun _ _ => false) 5 ⟨none, 0⟩).cache)).fetched = true)
    ∧ ((verifyToken (some "Bearer t3") "https://s.example" (fun _ => none)
          (fun _ _ => false) 7200002 ⟨some "old-set", 0⟩).fetched = true
        ∧ (verifyToken (some "Bearer t3") "https://s.example" (fun _ => none)
            (fun _ _ => false) 7200002 ⟨some "old-set", 0⟩).cache
          = ⟨some (jwksUrlOf "https://s.example"), 7200002⟩) :=
  ⟨jwks_cache_ttl_policy.1 "https://s.example" 3600000 ⟨some "cached-set", 0⟩
      "cached-set" rfl (by decide),
    jwks_cache_ttl_policy.2.1 "https://s.example" 7200001 ⟨some "cached-set", 3600000⟩
      (Or.inr (by decide)),
    jwks_cache_ttl_policy.2.2.1 (some "Bearer t1") (some "Bearer t2") "https://s.example"
      "https://s.example" (fun _ => none) (fun _ => none) (fun _ _ => false)
      (fun _ _ => false) 5 10 ⟨none, 0⟩ (by decide),
    jwks_cache_ttl_policy.2.2.2 "Bearer t3" "https://s.example" (fun _ => none)
      (fun _ _ => false) 7200002 ⟨some "old-set", 0⟩ "old-set" rfl (by decide) rfl⟩

/-- Counterexample to C3 as stated: the header `"Bearer a\tb"` does not
consist of exactly two whitespace-delimited parts (its whitespace
tokenization is `["Bearer", "a", "b"]`), yet the code — which splits on
the space character only — accepts its shape, invokes key-set resolution,
and fails with a rejected (not malformed) credential. -/
theorem malformed_header_counterexample :
    specHeaderShapeOk "Bearer a\tb" = false
    ∧ (verifyToken (some "Bearer a\tb") "https://s.example" (fun _ => none)
        (fun _ _ => false) 0 ⟨none, 0⟩).resolvedKeys = true
    ∧ isMalformedCredential (verifyToken (some "Bearer a\tb") "https://s.example"
        (fun _ => none) (fun _ _ => false) 0 ⟨none, 0⟩).result = false :=
  ⟨rfl, rfl, rfl⟩

/-- Claim C3 (corrected, space-delimited): a header that is absent or is
not exactly two space-character-delimited parts with first part `Bearer`
fails with `MalformedCredential`, and no key-set resolution or signature
check is attempted (cache untouched, no fetch). -/
theorem malformed_header_rejected_early (h : Option String) (url : String)
    (tokenOf : String → Option Token) (sigValid : String → String → Bool)
    (now : Nat) (cache : JWKSCache)
    (hbad : h = none ∨ ∃ s, h = some s ∧ headerShapeOk s = false) :
    isMalformedCredential (verifyToken h url tokenOf sigValid now cache).result = true
    ∧ (verifyToken h url tokenOf sigValid now cache).resolvedKeys = false
    ∧ (verifyToken h url tokenOf sigValid now cache).fetched = false
    ∧ (verifyToken h url tokenOf sigValid now cache).cache = cache := by
  obtain ⟨h1, h2, h3, h4⟩ := verifyToken_malformed_helper h url tokenOf sigValid now cache hbad
  exact ⟨h1, h4, h3, h2⟩

/-- Witness for the corrected C3 at a concrete wrong-scheme header. -/
theorem malformed_header_rejected_early_witness :
    isMalformedCredential (verifyToken (some "Token abc") "https://s.example"
        (fun _ => none) (fun _ _ => false) 0 ⟨none, 0⟩).result = true
    ∧ (verifyToken (some "Token abc") "https://s.example" (fun _ => none)
        (fun _ _ => false) 0 ⟨none, 0⟩).resolvedKeys = false
    ∧ (verifyToken (some "Token abc") "https://s.example" (fun _ => none)
        (fun _ _ => false) 0 ⟨none, 0⟩).fetched = false
    ∧ (verifyToken (some "Token abc") "https://s.example" (fun _ => none)
        (fun _ _ => false) 0 ⟨none, 0⟩).cache = ⟨none, 0⟩ :=
  malformed_header_rejected_early (some "Token abc") "https://s.example"
    (fun _ => none) (fun _ _ => false) 0 ⟨none, 0⟩
    (Or.inr ⟨"Token abc", rfl, rfl⟩)

/-- Claim C2 (confirmed): with a well-formed Bearer header carrying token
`t` and a cache consistent with the trusted issuer, if the token's
signature verifies against the trusted key set and its issuer, audience,
expiry and non-empty subject conditions all hold then `verify` returns
that subject; if any one of them fails, `verify` fails with a rejected
credential. -/
theorem verify_token_claim_conditions (url hdr t s : String) (tok : Token)
    (tokenOf : String → Option Token) (sigValid : String → String → Bool)
    (now : Nat) (cache : JWKSCache)
    (hshape : splitBy (fun c => c = ' ') hdr = ["Bearer", t])
    (hcache : ∀ j, cache.jwks = some j → j = jwksUrlOf url)
    (htok : tokenOf t = some tok) :
    ((sigValid t (jwksUrlOf url) = true ∧ tok.iss = url ++ "/auth/v1"
        ∧ tok.aud = "authenticated" ∧ now < tok.exp ∧ tok.sub = some s ∧ s ≠ "") →
      (verifyToken (some hdr) url tokenOf sigValid now cache).result = .ok s)
    ∧ ((sigValid t (jwksUrlOf url) = false ∨ tok.iss ≠ url ++ "/auth/v1"
        ∨ tok.aud ≠ "authenticated" ∨ tok.exp ≤ now ∨ tok.sub = none
        ∨ tok.sub = some "") →
      isCredentialRejected
        (verifyToken (some hdr) url tokenOf sigValid now cache).result = true) := by
  have hs : headerShapeOk hdr = true := by
    simp [headerShapeOk, hshape]
  have ht : tokenPart hdr = t := by
    simp [tokenPart, hshape]
  have hurl := getJWKS_url url now cache hcache
  constructor
  · rintro ⟨hsig, hiss, haud, hexp, hsub, hne⟩
    have hexp2 : ¬(tok.exp ≤ now) := by omega
    simp [verifyToken, hs, ht, hurl, jwtVerify, htok, hsig, hiss, haud, hexp2, hsub, hne]
  · intro hviol
    rcases hres : (verifyToken (some hdr) url tokenOf sigValid now cache).result with e | sv
    · rcases e with m | m
      · have hnm := verifyToken_shape_ok_not_malformed hdr url tokenOf sigValid now cache hs
        rw [hres] at hnm
        simp [isMalformedCredential] at hnm
      · simp [isCredentialRejected]
    · exfalso
      obtain ⟨-, tok2, hto2, hsig2, hiss2, haud2, hexp2, hsub2, hne2⟩ :=
        verifyToken_ok_inv hdr url tokenOf sigValid now cache sv hres
      rw [ht, htok] at hto2
      injection hto2 with hteq
      subst hteq
      rw [ht, hurl] at hsig2
      rcases hviol with hv | hv | hv | hv | hv | hv
      · rw [hsig2] at hv; cases hv
      · exact hv hiss2
      · exact hv haud2
      · omega
      · rw [hsub2] at hv; cases hv
      · rw [hsub2] at hv
        injection hv with hv2
        exact hne2 hv2

/-- Witness for C2: a concrete valid token is accepted with its subject. -/
theorem verify_token_claim_conditions_witness :
    (verifyToken (some "Bearer tok") "https://s.example"
        (fun x => if x = "tok" then
            some ⟨"https://s.example/auth/v1", "authenticated", 10, some "user-1"⟩
          else none)
        (fun _ _ => true) 0 ⟨none, 0⟩).result = .ok "user-1" :=
  (verify_token_claim_conditions "https://s.example" "Bearer tok" "tok" "user-1"
      ⟨"https://s.example/auth/v1", "authenticated", 10, some "user-1"⟩
      (fun x => if x = "tok" then
          some ⟨"https://s.example/auth/v1", "authenticated", 10, some "user-1"⟩
        else none)
      (fun _ _ => true) 0 ⟨none, 0⟩ rfl
      (fun j hj => Option.noConfusion hj) rfl).1
    ⟨rfl, rfl, rfl, by decide, rfl, by decide⟩
